import Mathlib

/-
Verification development for the Simon-Says firmware (src/main.cpp).

The C++ source is shallowly embedded below:
* `PatternManager` models the class of the same name (the fixed `uint8_t`
  array plus `length_` is modelled as the list of initialized elements).
* `BtnState` / `ButtonReader` model the per-button debounce state and the
  `update()` loop body.
* `GState` models the `GameController` fields together with the observable
  peripheral state it drives (the four LEDs and the last screen drawn on
  the LCD).  The buzzer produces no state read anywhere, so it is not
  modelled.
* `tick` models one call of `GameController::loop()`; the rising-edge flags
  computed by `ButtonReader::update()` at the top of the loop are supplied
  as the `Input` of the tick, together with the `millis()` readings taken
  during the tick and the next `random()` draw.

`unsigned long` arithmetic is 32-bit on the reference AVR target, so time
subtraction and addition are performed modulo 2^32 (`usub32`, `uadd32`).
`uint8_t` counters that the code increments are reduced modulo 256.
-/

namespace SimonSays

/-- Modulus of the C `unsigned long` type on the reference target. -/
def U32 : Nat := 4294967296

/-- C unsigned 32-bit subtraction `a - b` (wraps around). -/
def usub32 (a b : Nat) : Nat := (a % U32 + (U32 - b % U32)) % U32

/-- C unsigned 32-bit addition `a + b` (wraps around). -/
def uadd32 (a b : Nat) : Nat := (a + b) % U32

/-- Arduino `random(0, n)`: `0` when `n = 0`, otherwise the draw reduced
modulo `n`.  `rnd` stands for the raw value produced by the seeded
generator. -/
def randomBelow (rnd n : Nat) : Nat := if n = 0 then 0 else rnd % n

/-- `PatternManager` (src/main.cpp): the `uint8_t pattern_[50]` array and
`length_` are modelled as the list of initialized elements; `colors_` and
`maxLen_` are the constructor parameters. -/
structure PatternManager where
  colors : Nat
  maxLen : Nat
  pattern : List Nat
deriving DecidableEq

/-- `PatternManager::reset()`: sets the length to zero. -/
def PatternManager.reset (pm : PatternManager) : PatternManager :=
  { pm with pattern := [] }

/-- `PatternManager::begin()`: sets the length to zero and seeds the
generator (the seeding is modelled by the `rnd` values fed to `addStep`). -/
def PatternManager.begin (pm : PatternManager) : PatternManager :=
  pm.reset

/-- `PatternManager::addStep()`: appends one random draw in
`[0, colors)` when below the maximum length, otherwise does nothing. -/
def PatternManager.addStep (pm : PatternManager) (rnd : Nat) : PatternManager :=
  if pm.pattern.length < pm.maxLen then
    { pm with pattern := pm.pattern ++ [randomBelow rnd pm.colors] }
  else pm

/-- `PatternManager::getStep(idx)`: unchecked read of `pattern_[idx]`.
Reads beyond the initialized length return an unspecified value, modelled
by the default `0`; the safety claim shows such reads never happen. -/
def PatternManager.getStep (pm : PatternManager) (idx : Nat) : Nat :=
  pm.pattern.getD idx 0

/-- `PatternManager::length()`. -/
def PatternManager.length (pm : PatternManager) : Nat :=
  pm.pattern.length

/-- One operation on a `PatternManager` (for stating properties over any
operation sequence); `addStep` carries the raw random draw consumed. -/
inductive PMOp where
  | begin : PMOp
  | reset : PMOp
  | addStep : Nat → PMOp
deriving DecidableEq

/-- Apply one `PMOp`. -/
def PatternManager.applyOp (pm : PatternManager) : PMOp → PatternManager
  | .begin => pm.begin
  | .reset => pm.reset
  | .addStep rnd => pm.addStep rnd

/-- Apply a sequence of `PMOp`s, oldest first. -/
def PatternManager.applyOps (pm : PatternManager) (ops : List PMOp) : PatternManager :=
  ops.foldl PatternManager.applyOp pm

/-- Per-button state of `ButtonReader` (src/main.cpp): `curr_[i]`,
`prev_[i]`, `lastChange_[i]`, `edge_[i]`.  Levels are Booleans with
`true = HIGH` (released, pull-up wiring) and `false = LOW` (pressed). -/
structure BtnState where
  curr : Bool
  prev : Bool
  lastChange : Nat
  edge : Bool
deriving DecidableEq

/-- Loop body of `ButtonReader::update()` for one button: `raw` is the
fresh `digitalRead` value, `now` the `millis()` reading, `db` the
configured `debounceMs_`. -/
def ButtonReader.updateOne (db : Nat) (s : BtnState) (raw : Bool) (now : Nat) : BtnState :=
  if raw ≠ s.curr ∧ usub32 now s.lastChange ≥ db then
    { curr := raw, prev := s.curr, lastChange := now,
      edge := s.curr && !raw }
  else
    { s with edge := false }

/-- A sequence of `update()` calls for one button: each element is the raw
level read and the `millis()` value of that call, oldest first. -/
def ButtonReader.runBtn (db : Nat) (s : BtnState) : List (Bool × Nat) → BtnState
  | [] => s
  | (raw, now) :: rest => ButtonReader.runBtn db (ButtonReader.updateOne db s raw now) rest

/-- Formalisation of the SPEC's wording (not of the code), for comparison:
the raw samples taken during the settle window `[accTime - db, accTime)`
all agree with the previous accepted level. -/
def StableBefore (samples : List (Bool × Nat)) (level : Bool) (accTime db : Nat) : Prop :=
  ∀ p ∈ samples, accTime - db ≤ p.2 → p.2 < accTime → p.1 = level

instance (samples : List (Bool × Nat)) (level : Bool) (accTime db : Nat) :
    Decidable (StableBefore samples level accTime db) := by
  unfold StableBefore
  infer_instance

/-- `enum class State` of the game FSM. -/
inductive GameState where
  | IDLE : GameState
  | SHOW_PATTERN : GameState
  | WAIT_INPUT : GameState
  | GAME_OVER : GameState
deriving DecidableEq

/-- The screen currently drawn on the LCD (each `DisplayLCD::show*`
method fully redraws). `blank` is the cleared display before `begin()`
finishes. -/
inductive Screen where
  | blank : Screen
  | welcome : Int → Screen
  | level : Nat → Int → Screen
  | gameOver : Int → Int → Screen
  | pressToStart : Screen
  | win : Int → Int → Screen
deriving DecidableEq

/-- Output state of the four LEDs driven by `LEDDriver`. -/
structure Leds where
  l0 : Bool
  l1 : Bool
  l2 : Bool
  l3 : Bool
deriving DecidableEq

/-- `LEDDriver::offAll()` result (also the state after `begin()`). -/
def Leds.allOff : Leds := ⟨false, false, false, false⟩

/-- All four LEDs lit: the `for` loop `leds_.on(i)` over `i < count()`. -/
def Leds.allOn : Leds := ⟨true, true, true, true⟩

/-- `LEDDriver::on(idx)`: lights LED `idx`, no-op for `idx ≥ count()`. -/
def Leds.on (L : Leds) (i : Nat) : Leds :=
  if i = 0 then { L with l0 := true }
  else if i = 1 then { L with l1 := true }
  else if i = 2 then { L with l2 := true }
  else if i = 3 then { L with l3 := true }
  else L

/-- `LEDDriver::off(idx)`: clears LED `idx`, no-op for `idx ≥ count()`. -/
def Leds.off (L : Leds) (i : Nat) : Leds :=
  if i = 0 then { L with l0 := false }
  else if i = 1 then { L with l1 := false }
  else if i = 2 then { L with l2 := false }
  else if i = 3 then { L with l3 := false }
  else L

/-- Environment of one `GameController::loop()` call: the rising-edge
flags left by `buttons_.update()`, the `millis()` reading taken by the
state handler (`t1`), the `millis()` reading taken by `changeState`
(`t2`, after any blocking feedback inside the tick), and the next raw
`random()` draw consumed by `PatternManager::addStep`. -/
structure Input where
  e0 : Bool
  e1 : Bool
  e2 : Bool
  e3 : Bool
  t1 : Nat
  t2 : Nat
  rnd : Nat
deriving DecidableEq

/-- `ButtonReader::anyRisingEdge()` on this tick's edge flags: lowest
index with an edge, `255` (`0xFF`) when none. -/
def Input.anyRisingEdge (i : Input) : Nat :=
  if i.e0 then 0
  else if i.e1 then 1
  else if i.e2 then 2
  else if i.e3 then 3
  else 255

/-- `GameController` fields plus the observable peripheral state it
drives.  `uint8_t` fields (`level_`, `indexPattern_`, `indexInput_`) are
Nats kept faithful by reducing increments modulo 256; `score_` and
`highScore_` are C `int`s, modelled as `Int` (their values stay far below
any overflow bound). -/
structure GState where
  state : GameState
  level : Nat
  indexPattern : Nat
  indexInput : Nat
  lastChange : Nat
  ledOn : Bool
  score : Int
  highScore : Int
  won : Bool
  pm : PatternManager
  leds : Leds
  screen : Screen
deriving DecidableEq

/-- `const uint8_t WIN_SCORE = 3`. -/
def WIN_SCORE : Int := 3

/-- `GameController::changeState(s)`: records the state and the
`millis()` reading `t`. -/
def changeState (s : GState) (st : GameState) (t : Nat) : GState :=
  { s with state := st, lastChange := t }

/-- `GameController::handleIdle()`. -/
def handleIdle (s : GState) (i : Input) : GState :=
  if i.anyRisingEdge ≠ 255 then
    changeState
      { s with
        leds := Leds.allOff,
        pm := (s.pm.reset).addStep i.rnd,
        level := 1,
        score := 0,
        won := false,
        indexPattern := 0,
        ledOn := false,
        screen := Screen.level 1 s.highScore }
      GameState.SHOW_PATTERN i.t2
  else s

/-- `GameController::handleShowPattern()`: `onTime = 400`,
`offTime = 200`. -/
def handleShowPattern (s : GState) (i : Input) : GState :=
  let now := i.t1
  if s.indexPattern ≥ s.pm.length then
    changeState { s with leds := Leds.allOff, indexInput := 0 }
      GameState.WAIT_INPUT i.t2
  else if s.ledOn = false then
    { s with
      leds := Leds.on Leds.allOff (s.pm.getStep s.indexPattern),
      ledOn := true,
      lastChange := now }
  else if usub32 now s.lastChange ≥ 400 then
    { s with
      leds := Leds.allOff,
      ledOn := false,
      lastChange := uadd32 now 200,
      indexPattern := (s.indexPattern + 1) % 256 }
  else s

/-- `GameController::handleWaitInput()`.  The blocking
`on(btn); click(btn); delay(120); off(btn)` feedback nets out to LED
`btn` cleared before the comparison. -/
def handleWaitInput (s : GState) (i : Input) : GState :=
  let btn := i.anyRisingEdge
  if btn = 255 then s
  else
    let s1 := { s with leds := Leds.off (Leds.on s.leds btn) btn }
    if btn = s1.pm.getStep s1.indexInput then
      let s2 := { s1 with indexInput := (s1.indexInput + 1) % 256 }
      if s2.indexInput ≥ s2.pm.length then
        let s3 := { s2 with score := (s2.pm.length : Int) }
        let s4 := { s3 with
          highScore := if s3.score > s3.highScore then s3.score else s3.highScore }
        if s4.score ≥ WIN_SCORE then
          changeState
            { s4 with won := true, screen := Screen.win s4.score s4.highScore }
            GameState.GAME_OVER i.t2
        else
          let s5 := { s4 with level := (s4.level + 1) % 256 }
          changeState
            { s5 with
              pm := s5.pm.addStep i.rnd,
              indexPattern := 0,
              ledOn := false,
              screen := Screen.level s5.level s5.highScore }
            GameState.SHOW_PATTERN i.t2
      else s2
    else
      changeState
        { s1 with won := false, screen := Screen.gameOver s1.score s1.highScore }
        GameState.GAME_OVER i.t2

/-- `GameController::handleGameOver()`: time-driven blink, then return to
`IDLE` on any edge. -/
def handleGameOver (s : GState) (i : Input) : GState :=
  let now := i.t1
  let s1 :=
    if s.won then
      if (now / 400) % 2 = 0 then { s with leds := Leds.allOn }
      else { s with leds := Leds.allOff }
    else
      if (now / 200) % 2 = 0 then { s with leds := Leds.allOn }
      else { s with leds := Leds.allOff }
  if i.anyRisingEdge ≠ 255 then
    changeState { s1 with leds := Leds.allOff, screen := Screen.pressToStart }
      GameState.IDLE i.t2
  else s1

/-- One call of `GameController::loop()` after `buttons_.update()` has
produced the edge flags in `i`. -/
def tick (s : GState) (i : Input) : GState :=
  match s.state with
  | .IDLE => handleIdle s i
  | .SHOW_PATTERN => handleShowPattern s i
  | .WAIT_INPUT => handleWaitInput s i
  | .GAME_OVER => handleGameOver s i

/-- `GameController::begin()`: `pm_.begin()`, `level_ = 0`, `score_ = 0`,
`won_ = false`, `display_.begin()`, `display_.showPressToStart()`. -/
def GameController.begin (s : GState) : GState :=
  { s with
    pm := s.pm.begin,
    level := 0,
    score := 0,
    won := false,
    screen := Screen.pressToStart }

/-- The `GameController` right after its constructor ran, with the
globally constructed `PatternManager pattern(4, 50)` and the peripherals
initialized by `setup()`. -/
def ctorState : GState :=
  { state := GameState.IDLE,
    level := 0,
    indexPattern := 0,
    indexInput := 0,
    lastChange := 0,
    ledOn := false,
    score := 0,
    highScore := 0,
    won := false,
    pm := { colors := 4, maxLen := 50, pattern := [] },
    leds := Leds.allOff,
    screen := Screen.blank }

/-- The state right after `setup()` ran, i.e. after
`GameController::begin()`. -/
def initState : GState := GameController.begin ctorState

/-- A sequence of `loop()` calls, oldest input first. -/
def run (s : GState) : List Input → GState
  | [] => s
  | i :: is => run (tick s i) is

/-- Ghost instrumentation of `tick`: the values assigned to `score_`
during this tick, in assignment order (mirrors the two assignments in
`handleIdle` and `handleWaitInput`). -/
def tickScores (s : GState) (i : Input) : List Int :=
  match s.state with
  | .IDLE => if i.anyRisingEdge ≠ 255 then [0] else []
  | .WAIT_INPUT =>
    let btn := i.anyRisingEdge
    if btn = 255 then []
    else if btn = s.pm.getStep s.indexInput then
      if (s.indexInput + 1) % 256 ≥ s.pm.length then [(s.pm.length : Int)]
      else []
    else []
  | _ => []

/-- All values assigned to `score_` along a run, oldest first. -/
def runScores (s : GState) : List Input → List Int
  | [] => []
  | i :: is => tickScores s i ++ runScores (tick s i) is

/-- States reachable from `initState` by any sequence of ticks. -/
inductive Reachable : GState → Prop where
  | init : Reachable initState
  | step {s : GState} (i : Input) : Reachable s → Reachable (tick s i)

/-- Inductive invariant of the controller: the pattern configuration is
the one constructed in `setup()`, all cursors stay within the array
bounds, in `WaitInput` the input cursor is strictly inside the pattern,
and in `ShowPattern` the pattern is nonempty. -/
def Inv (s : GState) : Prop :=
  s.pm.colors = 4 ∧
  s.pm.maxLen = 50 ∧
  s.pm.pattern.length ≤ 50 ∧
  s.indexPattern ≤ 50 ∧
  s.indexInput ≤ 50 ∧
  (s.state = GameState.WAIT_INPUT → s.indexInput < s.pm.pattern.length) ∧
  (s.state = GameState.SHOW_PATTERN → 1 ≤ s.pm.pattern.length)

/- Concrete states and inputs used by the witness and counterexample
theorems. `d1 … d12` drive one full demonstration run: start a game,
watch the one-step playback, answer correctly (completing round one),
watch the two-step playback, answer wrongly, and restart from the
game-over screen. -/

/-- Tick input: rising edge on button 0 at time 0 (game start). -/
def d1 : Input := { e0 := true, e1 := false, e2 := false, e3 := false, t1 := 0, t2 := 0, rnd := 0 }

/-- Tick input: no edge, time 100 (step 0 LED goes on). -/
def d2 : Input := { e0 := false, e1 := false, e2 := false, e3 := false, t1 := 100, t2 := 100, rnd := 0 }

/-- Tick input: no edge, time 500 (step 0 on-phase elapses). -/
def d3 : Input := { e0 := false, e1 := false, e2 := false, e3 := false, t1 := 500, t2 := 500, rnd := 0 }

/-- Tick input: no edge, time 501 (playback done, hand over to input). -/
def d4 : Input := { e0 := false, e1 := false, e2 := false, e3 := false, t1 := 501, t2 := 501, rnd := 0 }

/-- Tick input: matching press on button 0; the round completes and the
pattern grows to `[0, 1]` (draw 1). -/
def d5 : Input := { e0 := true, e1 := false, e2 := false, e3 := false, t1 := 550, t2 := 600, rnd := 1 }

/-- Tick input: no edge, time 1000 (step 0 LED goes on again). -/
def d6 : Input := { e0 := false, e1 := false, e2 := false, e3 := false, t1 := 1000, t2 := 1000, rnd := 0 }

/-- Tick input: no edge, time 1400 (step 0 on-phase elapses; LEDs cleared). -/
def d7 : Input := { e0 := false, e1 := false, e2 := false, e3 := false, t1 := 1400, t2 := 1400, rnd := 0 }

/-- Tick input: no edge, time 1401 (step 1 LED goes on immediately). -/
def d8 : Input := { e0 := false, e1 := false, e2 := false, e3 := false, t1 := 1401, t2 := 1401, rnd := 0 }

/-- Tick input: no edge, time 1801 (step 1 on-phase elapses). -/
def d9 : Input := { e0 := false, e1 := false, e2 := false, e3 := false, t1 := 1801, t2 := 1801, rnd := 0 }

/-- Tick input: no edge, time 1802 (playback done, hand over to input). -/
def d10 : Input := { e0 := false, e1 := false, e2 := false, e3 := false, t1 := 1802, t2 := 1802, rnd := 0 }

/-- Tick input: wrong press on button 3 (expected 0): game over. -/
def d11 : Input := { e0 := false, e1 := false, e2 := false, e3 := true, t1 := 1900, t2 := 1900, rnd := 0 }

/-- Tick input: press on button 0 on the game-over screen: back to idle. -/
def d12 : Input := { e0 := true, e1 := false, e2 := false, e3 := false, t1 := 2000, t2 := 2000, rnd := 0 }

/-- A concrete `WaitInput` state for the C1 witness: first round,
pattern `[0]`, input cursor at `0`. -/
def w1S : GState :=
  { state := GameState.WAIT_INPUT,
    level := 1,
    indexPattern := 1,
    indexInput := 0,
    lastChange := 501,
    ledOn := false,
    score := 0,
    highScore := 0,
    won := false,
    pm := { colors := 4, maxLen := 50, pattern := [0] },
    leds := Leds.allOff,
    screen := Screen.level 1 0 }

/-- The C1 witness tick input: rising edge on button 1 (a mismatch). -/
def w1I : Input := { e0 := false, e1 := true, e2 := false, e3 := false, t1 := 550, t2 := 550, rnd := 0 }

/-- A concrete `WaitInput` state for the C2 witness: second round,
pattern `[0, 1]`, input cursor at `0`. -/
def w2S : GState :=
  { state := GameState.WAIT_INPUT,
    level := 2,
    indexPattern := 2,
    indexInput := 0,
    lastChange := 501,
    ledOn := false,
    score := 1,
    highScore := 1,
    won := false,
    pm := { colors := 4, maxLen := 50, pattern := [0, 1] },
    leds := Leds.allOff,
    screen := Screen.level 2 1 }

/-- The C2 witness tick input: rising edge on button 0 (a match). -/
def w2I : Input := { e0 := true, e1 := false, e2 := false, e3 := false, t1 := 550, t2 := 550, rnd := 3 }

/-- A concrete `WaitInput` state for the C3 witness: third round,
pattern `[0, 1, 2]`, input cursor at `2`. -/
def w3S : GState :=
  { state := GameState.WAIT_INPUT,
    level := 3,
    indexPattern := 3,
    indexInput := 2,
    lastChange := 501,
    ledOn := false,
    score := 2,
    highScore := 2,
    won := false,
    pm := { colors := 4, maxLen := 50, pattern := [0, 1, 2] },
    leds := Leds.allOff,
    screen := Screen.level 3 2 }

/-- The C3 witness tick input: rising edge on button 2, completing the
round at the winning length. -/
def w3I : Input := { e0 := false, e1 := false, e2 := true, e3 := false, t1 := 550, t2 := 550, rnd := 3 }

/-- A concrete `GameOver` state for the C7 witness: the player lost the
second round with `score = 1`, pattern `[0, 1]`. -/
def w7S : GState :=
  { state := GameState.GAME_OVER,
    level := 2,
    indexPattern := 2,
    indexInput := 0,
    lastChange := 1900,
    ledOn := false,
    score := 1,
    highScore := 1,
    won := false,
    pm := { colors := 4, maxLen := 50, pattern := [0, 1] },
    leds := Leds.allOff,
    screen := Screen.gameOver 1 1 }

/-- The C7 witness tick input: rising edge on button 0 on the game-over
screen. -/
def w7I : Input := { e0 := true, e1 := false, e2 := false, e3 := false, t1 := 2000, t2 := 2000, rnd := 0 }

/-- The per-button state right after `ButtonReader::begin()` at time 0
with the line reading HIGH (button released). -/
def b0 : BtnState := { curr := true, prev := true, lastChange := 0, edge := false }

/- ### Helper lemmas -/

lemma getLastD_append (l1 l2 : List Int) (d : Int) :
    (l1 ++ l2).getLastD d = l2.getLastD (l1.getLastD d) := by
  simp only [List.getLastD_eq_getLast?, List.getLast?_append]
  cases l2.getLast? with
  | none => rfl
  | some x => rfl

lemma PatternManager.length_eq (pm : PatternManager) : pm.length = pm.pattern.length := rfl

lemma WIN_SCORE_eq : WIN_SCORE = 3 := rfl

lemma randomBelow_lt (rnd n : Nat) (hn : 0 < n) : randomBelow rnd n < n := by
  unfold randomBelow
  rw [if_neg (Nat.pos_iff_ne_zero.mp hn)]
  exact Nat.mod_lt _ hn

/-- `applyOp` preserves the configuration and the element/length bounds. -/
lemma applyOp_inv (c m : Nat) (hc : 0 < c) (pm : PatternManager) (op : PMOp)
    (h1 : pm.colors = c) (h2 : pm.maxLen = m)
    (h3 : ∀ x ∈ pm.pattern, x < c) (h4 : pm.pattern.length ≤ m) :
    (pm.applyOp op).colors = c ∧ (pm.applyOp op).maxLen = m ∧
    (∀ x ∈ (pm.applyOp op).pattern, x < c) ∧ (pm.applyOp op).pattern.length ≤ m := by
  cases op with
  | begin =>
    simp only [PatternManager.applyOp, PatternManager.begin, PatternManager.reset]
    exact ⟨h1, h2, by simp, by simp⟩
  | reset =>
    simp only [PatternManager.applyOp, PatternManager.reset]
    exact ⟨h1, h2, by simp, by simp⟩
  | addStep rnd =>
    simp only [PatternManager.applyOp, PatternManager.addStep]
    by_cases h : pm.pattern.length < pm.maxLen
    · rw [if_pos h]
      refine ⟨h1, h2, ?_, ?_⟩
      · intro x hx
        rcases List.mem_append.mp hx with hx | hx
        · exact h3 x hx
        · rcases List.mem_singleton.mp hx with rfl
          exact h1 ▸ randomBelow_lt rnd pm.colors (h1 ▸ hc)
      · simp only [List.length_append, List.length_singleton]
        omega
    · rw [if_neg h]
      exact ⟨h1, h2, h3, h4⟩

/-- `applyOps` preserves the configuration and the element/length bounds. -/
lemma applyOps_inv (c m : Nat) (hc : 0 < c) (pm : PatternManager) (ops : List PMOp)
    (h1 : pm.colors = c) (h2 : pm.maxLen = m)
    (h3 : ∀ x ∈ pm.pattern, x < c) (h4 : pm.pattern.length ≤ m) :
    (pm.applyOps ops).colors = c ∧ (pm.applyOps ops).maxLen = m ∧
    (∀ x ∈ (pm.applyOps ops).pattern, x < c) ∧ (pm.applyOps ops).pattern.length ≤ m := by
  induction ops generalizing pm with
  | nil => exact ⟨h1, h2, h3, h4⟩
  | cons op ops ih =>
    obtain ⟨g1, g2, g3, g4⟩ := applyOp_inv c m hc pm op h1 h2 h3 h4
    exact ih (pm.applyOp op) g1 g2 g3 g4

/-- The values assigned to `score_` during a tick determine the new
`score_`: it is the last assignment, or the old value if none happened. -/
lemma tick_score_eq (s : GState) (i : Input) :
    (tick s i).score = (tickScores s i).getLastD s.score := by
  obtain ⟨st, lv, ip, ii, lc, lo, sc, hsc, w, pm, ld, scr⟩ := s
  cases st with
  | IDLE =>
    simp only [tick, handleIdle, tickScores, changeState]
    split_ifs <;> rfl
  | SHOW_PATTERN =>
    simp only [tick, handleShowPattern, tickScores, changeState]
    split_ifs <;> rfl
  | WAIT_INPUT =>
    simp only [tick, handleWaitInput, tickScores, changeState]
    split_ifs <;> rfl
  | GAME_OVER =>
    simp only [tick, handleGameOver, tickScores, changeState]
    split_ifs <;> rfl

/-- `highScore_` never decreases during a tick. -/
lemma tick_highScore_mono (s : GState) (i : Input) :
    s.highScore ≤ (tick s i).highScore := by
  obtain ⟨st, lv, ip, ii, lc, lo, sc, hsc, w, pm, ld, scr⟩ := s
  cases st with
  | IDLE =>
    simp only [tick, handleIdle, changeState]
    split_ifs <;> simp
  | SHOW_PATTERN =>
    simp only [tick, handleShowPattern, changeState]
    split_ifs <;> simp
  | WAIT_INPUT =>
    simp only [tick, handleWaitInput, changeState]
    split_ifs <;> simp <;> omega
  | GAME_OVER =>
    simp only [tick, handleGameOver, changeState]
    split_ifs <;> simp

/-- `highScore_` after a tick is the old value folded with the scores
assigned during the tick. -/
lemma tick_highScore_eq (s : GState) (i : Input) (h : 0 ≤ s.highScore) :
    (tick s i).highScore = (tickScores s i).foldl max s.highScore := by
  obtain ⟨st, lv, ip, ii, lc, lo, sc, hsc, w, pm, ld, scr⟩ := s
  simp only at h
  cases st with
  | IDLE =>
    simp only [tick, handleIdle, tickScores, changeState]
    split_ifs <;> simp <;> omega
  | SHOW_PATTERN =>
    simp only [tick, handleShowPattern, tickScores, changeState]
    split_ifs <;> rfl
  | WAIT_INPUT =>
    simp only [tick, handleWaitInput, tickScores, changeState]
    split_ifs <;> simp <;> omega
  | GAME_OVER =>
    simp only [tick, handleGameOver, tickScores, changeState]
    split_ifs <;> rfl

lemma run_append (a b : List Input) : ∀ s : GState, run s (a ++ b) = run (run s a) b := by
  induction a with
  | nil => intro s; rfl
  | cons x xs ih => intro s; simpa [run] using ih (tick s x)

lemma run_highScore_mono (is : List Input) : ∀ s : GState, s.highScore ≤ (run s is).highScore := by
  induction is with
  | nil => intro s; exact le_refl _
  | cons i is ih => intro s; exact le_trans (tick_highScore_mono s i) (ih (tick s i))

lemma run_score_eq (is : List Input) : ∀ s : GState,
    (run s is).score = (runScores s is).getLastD s.score := by
  induction is with
  | nil => intro s; rfl
  | cons i is ih =>
    intro s
    calc (run (tick s i) is).score
        = (runScores (tick s i) is).getLastD (tick s i).score := ih (tick s i)
      _ = (runScores (tick s i) is).getLastD ((tickScores s i).getLastD s.score) := by
          rw [tick_score_eq]
      _ = (tickScores s i ++ runScores (tick s i) is).getLastD s.score := by
          rw [getLastD_append]

lemma run_highScore_eq (is : List Input) : ∀ s : GState, 0 ≤ s.highScore →
    (run s is).highScore = (runScores s is).foldl max s.highScore := by
  induction is with
  | nil => intro s _; rfl
  | cons i is ih =>
    intro s h
    have h2 : 0 ≤ (tick s i).highScore := le_trans h (tick_highScore_mono s i)
    calc (run (tick s i) is).highScore
        = (runScores (tick s i) is).foldl max (tick s i).highScore := ih (tick s i) h2
      _ = (runScores (tick s i) is).foldl max ((tickScores s i).foldl max s.highScore) := by
          rw [tick_highScore_eq s i h]
      _ = (tickScores s i ++ runScores (tick s i) is).foldl max s.highScore := by
          rw [List.foldl_append]

/- ### Claim theorems -/

/-- C6: after `begin()`, `highScore` equals the maximum over `0` and every
value assigned to `score` so far (so it is `0` while no round was ever
completed), and it never decreases: neither across a single tick nor
across any continuation of a run. -/
theorem C6_highScore_invariant (is ks : List Input) (s : GState) (i : Input) :
    (run initState is).highScore = (runScores initState is).foldl max 0 ∧
    (run initState is).highScore ≤ (run initState (is ++ ks)).highScore ∧
    s.highScore ≤ (tick s i).highScore := by
  refine ⟨run_highScore_eq is initState (le_refl 0), ?_, tick_highScore_mono s i⟩
  rw [run_append]
  exact run_highScore_mono ks (run initState is)

/-- C1: in `WaitInput`, a rising edge on a button different from
`pattern[inputIndex]` sets `won = false`, shows the game-over screen with
the current score and high score, and moves to `GameOver`; `score` and
`highScore` are unchanged by the tick.  The final conjunct fixes what
that retained `score` is: along any run it equals the last value assigned
to it (`0` at each game start, the pattern length at each completed
round; `0` if nothing was ever assigned). -/
theorem C1_mismatch_gameOver (s : GState) (i : Input) (is : List Input)
    (hst : s.state = GameState.WAIT_INPUT)
    (hbtn : i.anyRisingEdge ≠ 255)
    (hne : i.anyRisingEdge ≠ s.pm.getStep s.indexInput) :
    (tick s i).won = false ∧
    (tick s i).screen = Screen.gameOver s.score s.highScore ∧
    (tick s i).state = GameState.GAME_OVER ∧
    (tick s i).score = s.score ∧
    (tick s i).highScore = s.highScore ∧
    (run initState is).score = (runScores initState is).getLastD 0 := by
  obtain ⟨st, lv, ip, ii, lc, lo, sc, hsc, w, pm, ld, scr⟩ := s
  simp only at hst hbtn hne
  subst hst
  refine ⟨?_, ?_, ?_, ?_, ?_, run_score_eq is initState⟩ <;>
    simp [tick, handleWaitInput, changeState, hbtn, hne]

/-- Witness for C1: pattern `[0]`, cursor at `0`, edge on button 1. -/
theorem C1_witness :
    (tick w1S w1I).won = false ∧
    (tick w1S w1I).screen = Screen.gameOver w1S.score w1S.highScore ∧
    (tick w1S w1I).state = GameState.GAME_OVER ∧
    (tick w1S w1I).score = w1S.score ∧
    (tick w1S w1I).highScore = w1S.highScore ∧
    (run initState [d1]).score = (runScores initState [d1]).getLastD 0 :=
  C1_mismatch_gameOver w1S w1I [d1] rfl (by decide) (by decide)

/-- C2: in `WaitInput`, a rising edge matching `pattern[inputIndex]`
increments the input cursor; while the incremented cursor is still short
of the pattern length the controller stays in `WaitInput` with `score`,
`highScore`, `level` and the pattern untouched, and exactly when the
incremented cursor reaches the pattern length the round completes:
`score` becomes the pattern length and `highScore` becomes
`max highScore score`.  The bounds `inputIndex < length ≤ 50` hold in
every reachable `WaitInput` state (see the C10 theorem). -/
theorem C2_match_progress (s : GState) (i : Input)
    (hst : s.state = GameState.WAIT_INPUT)
    (hbtn : i.anyRisingEdge ≠ 255)
    (heq : i.anyRisingEdge = s.pm.getStep s.indexInput)
    (hidx : s.indexInput < s.pm.length)
    (hlen : s.pm.length ≤ 50) :
    (tick s i).indexInput = s.indexInput + 1 ∧
    (s.indexInput + 1 < s.pm.length →
      (tick s i).state = GameState.WAIT_INPUT ∧
      (tick s i).score = s.score ∧
      (tick s i).highScore = s.highScore ∧
      (tick s i).level = s.level ∧
      (tick s i).pm = s.pm) ∧
    (s.indexInput + 1 = s.pm.length →
      (tick s i).score = (s.pm.length : Int) ∧
      (tick s i).highScore = max s.highScore (s.pm.length : Int)) := by
  obtain ⟨st, lv, ip, ii, lc, lo, sc, hsc, w, pm, ld, scr⟩ := s
  simp only at hst hbtn heq hidx hlen
  subst hst
  rw [heq] at hbtn
  have hmod : (ii + 1) % 256 = ii + 1 := by
    rw [PatternManager.length_eq] at hidx hlen
    exact Nat.mod_eq_of_lt (by omega)
  refine ⟨?_, ?_, ?_⟩
  · simp only [tick, handleWaitInput, changeState, heq, hmod]
    split_ifs <;> simp <;> tauto
  · intro hlt
    simp only at hlt
    have hcond : ¬ ((ii + 1) % 256 ≥ pm.length) := by rw [hmod]; omega
    simp [tick, handleWaitInput, changeState, hbtn, heq, hcond]
  · intro hcomp
    simp only at hcomp
    have hcond : (ii + 1) % 256 ≥ pm.length := by rw [hmod]; omega
    simp [tick, handleWaitInput, changeState, hbtn, heq, hcond, hmod]
    split_ifs <;> simp <;> omega

/-- Witness for C2: pattern `[0, 1]`, cursor at `0`, matching press on
button 0 (round not yet complete). -/
theorem C2_witness :
    (tick w2S w2I).indexInput = w2S.indexInput + 1 ∧
    (w2S.indexInput + 1 < w2S.pm.length →
      (tick w2S w2I).state = GameState.WAIT_INPUT ∧
      (tick w2S w2I).score = w2S.score ∧
      (tick w2S w2I).highScore = w2S.highScore ∧
      (tick w2S w2I).level = w2S.level ∧
      (tick w2S w2I).pm = w2S.pm) ∧
    (w2S.indexInput + 1 = w2S.pm.length →
      (tick w2S w2I).score = (w2S.pm.length : Int) ∧
      (tick w2S w2I).highScore = max w2S.highScore (w2S.pm.length : Int)) :=
  C2_match_progress w2S w2I rfl (by decide) (by decide) (by decide) (by decide)

/-- C3: when a round completes in `WaitInput`, then if the new score
reaches `WIN_SCORE` the controller sets `won = true`, shows the win
screen and moves to `GameOver` (the win path, not the fail path);
otherwise it increments `level`, appends exactly one pattern step, resets
the playback cursor, shows the level screen and moves to `ShowPattern`. -/
theorem C3_winOrNextLevel (s : GState) (i : Input)
    (hst : s.state = GameState.WAIT_INPUT)
    (hbtn : i.anyRisingEdge ≠ 255)
    (heq : i.anyRisingEdge = s.pm.getStep s.indexInput)
    (hidx : s.indexInput + 1 = s.pm.length)
    (hlen : s.pm.length ≤ 50)
    (hmax : s.pm.maxLen = 50)
    (hlvl : s.level ≤ 254) :
    ((s.pm.length : Int) ≥ WIN_SCORE →
      (tick s i).won = true ∧
      (tick s i).state = GameState.GAME_OVER ∧
      (tick s i).screen =
        Screen.win ((s.pm.length : Int)) (max s.highScore (s.pm.length : Int))) ∧
    ((s.pm.length : Int) < WIN_SCORE →
      (tick s i).level = s.level + 1 ∧
      (tick s i).pm.pattern = s.pm.pattern ++ [randomBelow i.rnd s.pm.colors] ∧
      (tick s i).indexPattern = 0 ∧
      (tick s i).screen =
        Screen.level (s.level + 1) (max s.highScore (s.pm.length : Int)) ∧
      (tick s i).state = GameState.SHOW_PATTERN) := by
  obtain ⟨st, lv, ip, ii, lc, lo, sc, hsc, w, pm, ld, scr⟩ := s
  simp only at hst hbtn heq hidx hlen hmax hlvl
  subst hst
  rw [heq] at hbtn
  rw [PatternManager.length_eq] at hidx hlen
  have hmod : (ii + 1) % 256 = ii + 1 := Nat.mod_eq_of_lt (by omega)
  have hcond : (ii + 1) % 256 ≥ pm.length := by
    rw [hmod, PatternManager.length_eq]; omega
  have hlvlmod : (lv + 1) % 256 = lv + 1 := Nat.mod_eq_of_lt (by omega)
  constructor
  · intro hwin
    simp only at hwin
    simp [tick, handleWaitInput, changeState, hbtn, heq, hcond, hwin]
    omega
  · intro hlose
    simp only at hlose
    have hnwin : ¬ ((pm.length : Int) ≥ WIN_SCORE) := by omega
    have happ : pm.pattern.length < pm.maxLen := by
      rw [PatternManager.length_eq, WIN_SCORE_eq] at hlose
      omega
    simp [tick, handleWaitInput, changeState, PatternManager.addStep,
      hbtn, heq, hcond, hnwin, hlvlmod, happ]
    omega

/-- Witness for C3: pattern `[0, 1, 2]`, last matching press on button 2
completes the round at the winning length 3. -/
theorem C3_witness :
    (((w3S.pm.length : Int)) ≥ WIN_SCORE →
      (tick w3S w3I).won = true ∧
      (tick w3S w3I).state = GameState.GAME_OVER ∧
      (tick w3S w3I).screen =
        Screen.win ((w3S.pm.length : Int)) (max w3S.highScore (w3S.pm.length : Int))) ∧
    (((w3S.pm.length : Int)) < WIN_SCORE →
      (tick w3S w3I).level = w3S.level + 1 ∧
      (tick w3S w3I).pm.pattern = w3S.pm.pattern ++ [randomBelow w3I.rnd w3S.pm.colors] ∧
      (tick w3S w3I).indexPattern = 0 ∧
      (tick w3S w3I).screen =
        Screen.level (w3S.level + 1) (max w3S.highScore (w3S.pm.length : Int)) ∧
      (tick w3S w3I).state = GameState.SHOW_PATTERN) :=
  C3_winOrNextLevel w3S w3I rfl (by decide) (by decide) (by decide) (by decide)
    (by decide) (by decide)

/-- C4: for every sequence of `PatternManager` operations starting from the
freshly constructed manager, every stored element is in `[0, colorCount)`
and the length never exceeds the configured maximum; `addStep` at the
maximum length is the identity, and `addStep` below the maximum appends
exactly one element in `[0, colorCount)`, leaving the earlier elements
unchanged. -/
theorem C4_patternManager_bounds (pm0 pmF pmR : PatternManager) (ops : List PMOp) (rnd : Nat)
    (h0 : pm0.pattern = []) (hc : 0 < pm0.colors)
    (hF : pmF.pattern.length = pmF.maxLen)
    (hR : pmR.pattern.length < pmR.maxLen) (hRc : 0 < pmR.colors) :
    (∀ x ∈ (pm0.applyOps ops).pattern, x < pm0.colors) ∧
    (pm0.applyOps ops).pattern.length ≤ pm0.maxLen ∧
    pmF.addStep rnd = pmF ∧
    (pmR.addStep rnd).pattern = pmR.pattern ++ [randomBelow rnd pmR.colors] ∧
    randomBelow rnd pmR.colors < pmR.colors := by
  obtain ⟨g1, g2, g3, g4⟩ :=
    applyOps_inv pm0.colors pm0.maxLen hc pm0 ops rfl rfl (by simp [h0]) (by simp [h0])
  refine ⟨g3, g4, ?_, ?_, randomBelow_lt rnd pmR.colors hRc⟩
  · simp [PatternManager.addStep, hF]
  · simp [PatternManager.addStep, hR]

/-- Witness for C4 at a concrete manager, operation list and draws. -/
theorem C4_witness :
    (∀ x ∈ ((⟨4, 50, []⟩ : PatternManager).applyOps
        [PMOp.addStep 7, PMOp.begin, PMOp.addStep 5, PMOp.addStep 2]).pattern,
      x < (⟨4, 50, []⟩ : PatternManager).colors) ∧
    ((⟨4, 50, []⟩ : PatternManager).applyOps
        [PMOp.addStep 7, PMOp.begin, PMOp.addStep 5, PMOp.addStep 2]).pattern.length ≤
      (⟨4, 50, []⟩ : PatternManager).maxLen ∧
    (⟨4, 2, [1, 2]⟩ : PatternManager).addStep 6 = ⟨4, 2, [1, 2]⟩ ∧
    ((⟨4, 50, [3]⟩ : PatternManager).addStep 6).pattern =
      (⟨4, 50, [3]⟩ : PatternManager).pattern ++ [randomBelow 6 (⟨4, 50, [3]⟩ : PatternManager).colors] ∧
    randomBelow 6 (⟨4, 50, [3]⟩ : PatternManager).colors < (⟨4, 50, [3]⟩ : PatternManager).colors :=
  C4_patternManager_bounds ⟨4, 50, []⟩ ⟨4, 2, [1, 2]⟩ ⟨4, 50, [3]⟩
    [PMOp.addStep 7, PMOp.begin, PMOp.addStep 5, PMOp.addStep 2] 6
    rfl (by decide) rfl (by decide) (by decide)

/-- C5: in `Idle`, a tick with any rising edge clears the LEDs, sets
`level = 1`, `score = 0`, `won = false`, makes the pattern length exactly
`1`, resets the playback cursor, shows the level screen and moves to
`ShowPattern`; a tick with no rising edge leaves the state unchanged. -/
theorem C5_idleStart (s : GState) (i : Input)
    (hst : s.state = GameState.IDLE) (hmax : 0 < s.pm.maxLen) :
    (i.anyRisingEdge ≠ 255 →
      (tick s i).leds = Leds.allOff ∧
      (tick s i).level = 1 ∧
      (tick s i).score = 0 ∧
      (tick s i).won = false ∧
      (tick s i).pm.pattern = [randomBelow i.rnd s.pm.colors] ∧
      (tick s i).indexPattern = 0 ∧
      (tick s i).screen = Screen.level 1 s.highScore ∧
      (tick s i).state = GameState.SHOW_PATTERN) ∧
    (i.anyRisingEdge = 255 → tick s i = s) := by
  obtain ⟨st, lv, ip, ii, lc, lo, sc, hsc, w, pm, ld, scr⟩ := s
  simp only at hst hmax
  subst hst
  constructor
  · intro hedge
    simp [tick, handleIdle, changeState, if_pos hedge, PatternManager.reset,
      PatternManager.addStep, hmax]
  · intro hnone
    simp [tick, handleIdle, hnone]

/-- Witness for C5: a concrete `Idle` state, one tick with an edge on
button 0 and one tick with no edge. -/
theorem C5_witness :
    ((⟨false, false, true, false, 7, 9, 6⟩ : Input).anyRisingEdge ≠ 255 →
      (tick initState ⟨false, false, true, false, 7, 9, 6⟩).leds = Leds.allOff ∧
      (tick initState ⟨false, false, true, false, 7, 9, 6⟩).level = 1 ∧
      (tick initState ⟨false, false, true, false, 7, 9, 6⟩).score = 0 ∧
      (tick initState ⟨false, false, true, false, 7, 9, 6⟩).won = false ∧
      (tick initState ⟨false, false, true, false, 7, 9, 6⟩).pm.pattern =
        [randomBelow 6 initState.pm.colors] ∧
      (tick initState ⟨false, false, true, false, 7, 9, 6⟩).indexPattern = 0 ∧
      (tick initState ⟨false, false, true, false, 7, 9, 6⟩).screen =
        Screen.level 1 initState.highScore ∧
      (tick initState ⟨false, false, true, false, 7, 9, 6⟩).state = GameState.SHOW_PATTERN) ∧
    ((⟨false, false, true, false, 7, 9, 6⟩ : Input).anyRisingEdge = 255 →
      tick initState ⟨false, false, true, false, 7, 9, 6⟩ = initState) :=
  C5_idleStart initState ⟨false, false, true, false, 7, 9, 6⟩ rfl (by decide)

/-- Counterexample for C7: after the demonstration run (win round one,
fail in round two, press a button on the game-over screen) the controller
re-enters `Idle`, but the pattern is still `[0, 1]`, `level` is still `2`
and `score` is still `1` — none of them is reset on this entry, contrary
to the claim that every entry into `Idle` resets them. -/
theorem C7_counterexample :
    (run initState [d1, d2, d3, d4, d5, d6, d7, d8, d9, d10, d11, d12]).state =
      GameState.IDLE ∧
    (run initState [d1, d2, d3, d4, d5, d6, d7, d8, d9, d10, d11, d12]).screen =
      Screen.pressToStart ∧
    (run initState [d1, d2, d3, d4, d5, d6, d7, d8, d9, d10, d11, d12]).pm.pattern ≠ [] ∧
    (run initState [d1, d2, d3, d4, d5, d6, d7, d8, d9, d10, d11, d12]).level ≠ 0 ∧
    (run initState [d1, d2, d3, d4, d5, d6, d7, d8, d9, d10, d11, d12]).score ≠ 0 := by
  decide

/-- C7 (amended): the initial entry into `Idle` via `begin()` resets the
pattern to empty, `level = 0`, `score = 0`, `won = false` and shows the
press-to-start screen; re-entry from `GameOver` on a button edge only
clears the LEDs and shows press-to-start, while the pattern, `level`,
`score` and `won` keep their end-of-game values (they are reset only when
the next game starts from `Idle`). -/
theorem C7_idleEntry_amended (s : GState) (i : Input)
    (hst : s.state = GameState.GAME_OVER)
    (hbtn : i.anyRisingEdge ≠ 255) :
    (GameController.begin s).pm.pattern = [] ∧
    (GameController.begin s).level = 0 ∧
    (GameController.begin s).score = 0 ∧
    (GameController.begin s).won = false ∧
    (GameController.begin s).screen = Screen.pressToStart ∧
    (tick s i).state = GameState.IDLE ∧
    (tick s i).leds = Leds.allOff ∧
    (tick s i).screen = Screen.pressToStart ∧
    (tick s i).pm = s.pm ∧
    (tick s i).level = s.level ∧
    (tick s i).score = s.score ∧
    (tick s i).won = s.won := by
  obtain ⟨st, lv, ip, ii, lc, lo, sc, hsc, w, pm, ld, scr⟩ := s
  simp only at hst hbtn
  subst hst
  refine ⟨?_, ?_, ?_, ?_, ?_, ?_⟩ <;>
    simp [GameController.begin, PatternManager.begin, PatternManager.reset,
      tick, handleGameOver, changeState, hbtn] <;>
    split_ifs <;> simp

/-- Witness for C7 (amended) at a concrete lost game. -/
theorem C7_witness :
    (GameController.begin w7S).pm.pattern = [] ∧
    (GameController.begin w7S).level = 0 ∧
    (GameController.begin w7S).score = 0 ∧
    (GameController.begin w7S).won = false ∧
    (GameController.begin w7S).screen = Screen.pressToStart ∧
    (tick w7S w7I).state = GameState.IDLE ∧
    (tick w7S w7I).leds = Leds.allOff ∧
    (tick w7S w7I).screen = Screen.pressToStart ∧
    (tick w7S w7I).pm = w7S.pm ∧
    (tick w7S w7I).level = w7S.level ∧
    (tick w7S w7I).score = w7S.score ∧
    (tick w7S w7I).won = w7S.won :=
  C7_idleEntry_amended w7S w7I rfl (by decide)

/-- C8 (code bug): during the two-step playback of the demonstration run,
step 0's LED is cleared by the tick at `t1 = 1400` ms (on-phase elapsed),
and the very next tick at `t1 = 1401` ms already lights step 1's LED —
1 ms after the clear, far below the 200 ms off-duration the claim
requires between steps.  The deadline `lastChange_ = now + offTime`
stored by the elapsing branch is overwritten unread, because the
`!ledOn_` branch lights the next LED unconditionally. -/
theorem C8_showPattern_noGap :
    (run initState [d1, d2, d3, d4, d5, d6, d7]).state = GameState.SHOW_PATTERN ∧
    (run initState [d1, d2, d3, d4, d5, d6, d7]).leds = Leds.allOff ∧
    (run initState [d1, d2, d3, d4, d5, d6, d7]).ledOn = false ∧
    (run initState [d1, d2, d3, d4, d5, d6, d7, d8]).leds =
      { l0 := false, l1 := true, l2 := false, l3 := false } ∧
    (run initState [d1, d2, d3, d4, d5, d6, d7, d8]).ledOn = true ∧
    d8.t1 - d7.t1 = 1 ∧ d8.t1 - d7.t1 < 200 := by
  decide

/-- Counterexample for C9: `begin()` samples HIGH at time 0; the raw line
then reads LOW at 10 ms (rejected: only 10 ms since the last accepted
change), HIGH at 20 ms, LOW at 30 ms.  The change at 30 ms is accepted
and reported as a rising edge even though the raw input was not stable at
its previous level HIGH during the 25 ms settle window before the
acceptance (the sample at 10 ms inside that window was LOW). -/
theorem C9_counterexample :
    (ButtonReader.runBtn 25 b0 [(false, 10), (true, 20), (false, 30)]).edge = true ∧
    ¬ StableBefore [(false, 10), (true, 20), (false, 30)] true 30 25 := by
  decide

/-- C9 (amended): the debounce is a lockout, not a stability filter: an
edge is reported by an update only when at least `debounceMs` has elapsed
(in wraparound arithmetic) since the last accepted level change and the
accepted transition is HIGH to LOW; and any update arriving before the
lockout expires changes nothing except clearing the edge flag.  Raw
stability during the window is not required. -/
theorem C9_debounce_amended (db db2 : Nat) (s s2 : BtnState) (raw raw2 : Bool) (now now2 : Nat)
    (hedge : (ButtonReader.updateOne db s raw now).edge = true)
    (hlt : usub32 now2 s2.lastChange < db2) :
    (usub32 now s.lastChange ≥ db ∧ s.curr = true ∧ raw = false) ∧
    ButtonReader.updateOne db2 s2 raw2 now2 = { s2 with edge := false } := by
  constructor
  · unfold ButtonReader.updateOne at hedge
    split_ifs at hedge with h
    simp only [Bool.and_eq_true, Bool.not_eq_true'] at hedge
    exact ⟨h.2, hedge.1, hedge.2⟩
  · unfold ButtonReader.updateOne
    have hc : ¬ (raw2 ≠ s2.curr ∧ usub32 now2 s2.lastChange ≥ db2) := by
      rintro ⟨-, h2⟩
      omega
    rw [if_neg hc]

/-- Witness for C9 (amended): the accepted edge of the counterexample
trace at 30 ms, and a rejected change at 10 ms. -/
theorem C9_witness :
    (usub32 30 b0.lastChange ≥ 25 ∧ b0.curr = true ∧ false = false) ∧
    ButtonReader.updateOne 25 b0 false 10 = { b0 with edge := false } :=
  C9_debounce_amended 25 25 b0 b0 false false 30 10 (by decide) (by decide)

lemma inv_init : Inv initState := by
  unfold Inv
  refine ⟨rfl, rfl, by decide, by decide, by decide, ?_, ?_⟩ <;>
    exact fun hx => absurd hx (by decide)

lemma inv_tick (s : GState) (i : Input) (h : Inv s) : Inv (tick s i) := by
  obtain ⟨hc, hm, hlen, hip, hii, hwait, hshow⟩ := h
  obtain ⟨st, lv, ip, ii, lc, lo, sc, hsc, w, pm, ld, scr⟩ := s
  simp only at hc hm hlen hip hii hwait hshow
  cases st with
  | IDLE =>
    simp only [tick, handleIdle, changeState]
    split_ifs with he
    · have hP : (pm.reset).addStep i.rnd =
          ⟨pm.colors, pm.maxLen, [randomBelow i.rnd pm.colors]⟩ := by
        simp [PatternManager.reset, PatternManager.addStep, hm]
      exact ⟨by rw [hP]; exact hc,
        by rw [hP]; exact hm,
        by rw [hP]; simp,
        Nat.zero_le _,
        hii,
        fun hx => by simp at hx,
        fun _ => by rw [hP]; simp⟩
    · exact ⟨hc, hm, hlen, hip, hii, hwait, hshow⟩
  | SHOW_PATTERN =>
    have h1le : 1 ≤ pm.pattern.length := hshow rfl
    simp only [tick, handleShowPattern, changeState]
    split_ifs with h1 h2 h3
    · exact ⟨hc, hm, hlen, hip, Nat.zero_le _,
        fun _ => by show (0 : Nat) < pm.pattern.length; omega,
        fun hx => by simp at hx⟩
    · exact ⟨hc, hm, hlen, hip, hii, hwait, hshow⟩
    · have hip2 : ip < pm.pattern.length := by
        rw [PatternManager.length_eq] at h1
        omega
      exact ⟨hc, hm, hlen,
        by show (ip + 1) % 256 ≤ 50; omega,
        hii,
        fun hx => by simp at hx,
        fun _ => h1le⟩
    · exact ⟨hc, hm, hlen, hip, hii, hwait, hshow⟩
  | WAIT_INPUT =>
    have hii_lt : ii < pm.pattern.length := hwait rfl
    simp only [tick, handleWaitInput, changeState]
    by_cases h1 : i.anyRisingEdge = 255
    · simp only [if_pos h1]
      exact ⟨hc, hm, hlen, hip, hii, hwait, hshow⟩
    · by_cases h2 : i.anyRisingEdge = pm.getStep ii
      · by_cases h3 : (ii + 1) % 256 ≥ pm.length
        · by_cases h4 : ((pm.length : Int)) ≥ WIN_SCORE
          · simp only [if_neg h1, if_pos h2, if_pos h3, if_pos h4]
            exact ⟨hc, hm, hlen, hip,
              by show (ii + 1) % 256 ≤ 50; omega,
              fun hx => by simp at hx,
              fun hx => by simp at hx⟩
          · have hlen3 : pm.pattern.length < pm.maxLen := by
              rw [PatternManager.length_eq, WIN_SCORE_eq] at h4
              omega
            have hP : pm.addStep i.rnd =
                ⟨pm.colors, pm.maxLen, pm.pattern ++ [randomBelow i.rnd pm.colors]⟩ := by
              simp [PatternManager.addStep, hlen3]
            simp only [if_neg h1, if_pos h2, if_pos h3, if_neg h4]
            exact ⟨by rw [hP]; exact hc,
              by rw [hP]; exact hm,
              by rw [hP]
                 show (pm.pattern ++ [randomBelow i.rnd pm.colors]).length ≤ 50
                 simp only [List.length_append, List.length_singleton]
                 omega,
              Nat.zero_le _,
              by show (ii + 1) % 256 ≤ 50; omega,
              fun hx => by simp at hx,
              fun _ => by
                rw [hP]
                show 1 ≤ (pm.pattern ++ [randomBelow i.rnd pm.colors]).length
                simp⟩
        · simp only [if_neg h1, if_pos h2, if_neg h3]
          have h3lt : (ii + 1) % 256 < pm.pattern.length := by
            rw [PatternManager.length_eq] at h3
            omega
          exact ⟨hc, hm, hlen, hip,
            by show (ii + 1) % 256 ≤ 50; omega,
            fun _ => h3lt,
            fun hx => by simp at hx⟩
      · simp only [if_neg h1, if_neg h2]
        exact ⟨hc, hm, hlen, hip, hii,
          fun hx => by simp at hx,
          fun hx => by simp at hx⟩
  | GAME_OVER =>
    simp only [tick, handleGameOver, changeState]
    split_ifs <;>
      exact ⟨hc, hm, hlen, hip, hii,
        fun hx => by simp at hx,
        fun hx => by simp at hx⟩

lemma reachable_inv (s : GState) (h : Reachable s) : Inv s := by
  induction h with
  | init => exact inv_init
  | step i _ ih => exact inv_tick _ i ih

lemma reachable_run (is : List Input) : ∀ s : GState, Reachable s → Reachable (run s is) := by
  induction is with
  | nil => exact fun s hs => hs
  | cons i is ih => exact fun s hs => ih (tick s i) (Reachable.step i hs)

/-- C10: in every reachable controller state, the `getStep` calls made by
the handlers are within the initialized pattern: in `WaitInput` the input
cursor is strictly below the pattern length (the `handleWaitInput` read),
and in `ShowPattern` the playback cursor is strictly below the pattern
length whenever the early-return guard `indexPattern >= length` does not
fire — which is exactly when `handleShowPattern` reads the pattern. -/
theorem C10_getStep_inBounds (s : GState) (h : Reachable s) :
    (s.state = GameState.WAIT_INPUT → s.indexInput < s.pm.length) ∧
    (s.state = GameState.SHOW_PATTERN → ¬ (s.indexPattern ≥ s.pm.length) →
      s.indexPattern < s.pm.length) := by
  obtain ⟨-, -, -, -, -, hwait, -⟩ := reachable_inv s h
  constructor
  · intro hs
    rw [PatternManager.length_eq]
    exact hwait hs
  · intro _ hguard
    omega

/-- Witness for C10: the reachable `WaitInput` state four ticks into the
demonstration run (pattern `[0]`, input cursor `0`). -/
theorem C10_witness :
    ((run initState [d1, d2, d3, d4]).state = GameState.WAIT_INPUT →
      (run initState [d1, d2, d3, d4]).indexInput <
        (run initState [d1, d2, d3, d4]).pm.length) ∧
    ((run initState [d1, d2, d3, d4]).state = GameState.SHOW_PATTERN →
      ¬ ((run initState [d1, d2, d3, d4]).indexPattern ≥
          (run initState [d1, d2, d3, d4]).pm.length) →
      (run initState [d1, d2, d3, d4]).indexPattern <
        (run initState [d1, d2, d3, d4]).pm.length) :=
  C10_getStep_inBounds (run initState [d1, d2, d3, d4])
    (reachable_run [d1, d2, d3, d4] initState Reachable.init)

end SimonSays
